import Mathlib

/-!
Shallow embedding of the tijara-backend messaging and notification
controllers (src/controllers/message.controller.ts and
src/controllers/notification.controller.ts), over the Prisma data model
of src (models Conversation, Message, Notification).

Ids generated by the database (cuid) are modelled as a fresh-counter
`nextId` on the store; wall-clock timestamps (new Date(), Prisma now())
are modelled as a `now : Nat` argument supplied per request.  Prisma
list queries are modelled over the store lists: findFirst is List.find?,
findMany with a where filter is List.filter, orderBy createdAt desc is a
stable sort on the createdAt key, updateMany maps a conditional update
over the list, and delete of a non-matching record throws (Prisma error
P2025), which the surrounding try/catch turns into a 500 response.
-/

namespace Tijara

/-- Prisma model Conversation: id, many-to-many participant user ids,
listing id, and the denormalized lastMessage / lastMessageAt summary. -/
structure Conversation where
  id : Nat
  participants : List String
  listingId : String
  lastMessage : Option String
  lastMessageAt : Nat
deriving Repr, DecidableEq

/-- Prisma model Message: content, sender, recipient, owning
conversation, creation time and read flag (default false). -/
structure Message where
  id : Nat
  content : String
  senderId : String
  recipientId : String
  conversationId : Nat
  createdAt : Nat
  read : Bool
deriving Repr, DecidableEq

/-- The message-controller slice of the database: conversation and
message tables plus the fresh-id counter. -/
structure MsgStore where
  conversations : List Conversation
  messages : List Message
  nextId : Nat
deriving Repr, DecidableEq

/-- The findFirst where-clause of sendMessage: participants some id =
senderId AND participants some id = receiverId AND listingId equals. -/
def convMatches (senderId receiverId listingId : String) (c : Conversation) : Bool :=
  c.participants.contains senderId && c.participants.contains receiverId
    && c.listingId == listingId

/-- The conversation.update at the end of sendMessage: set lastMessage
to the new content and lastMessageAt to the current time, on the row
whose id matches. -/
def updateSummary (cid : Nat) (content : String) (t : Nat) (c : Conversation) : Conversation :=
  if c.id == cid then { c with lastMessage := some content, lastMessageAt := t } else c

/-- The body of the sendMessage 200 response: the created message and
the conversation variable as read (or created) before the summary
update. -/
structure SendResult where
  message : Message
  conversation : Conversation
deriving Repr, DecidableEq

/-- sendMessage (message.controller.ts): find a conversation whose
participants include both parties with the exact listingId; create one
with those two participants when none exists; create the message; then
update the conversation summary.  The response carries the conversation
variable, which is not re-read after the update. -/
def sendMessage (s : MsgStore) (senderId receiverId listingId content : String)
    (now : Nat) : SendResult × MsgStore :=
  match s.conversations.find? (convMatches senderId receiverId listingId) with
  | some conv =>
      let msg : Message :=
        ⟨s.nextId, content, senderId, receiverId, conv.id, now, false⟩
      (⟨msg, conv⟩,
        ⟨s.conversations.map (updateSummary conv.id content now),
         s.messages ++ [msg], s.nextId + 1⟩)
  | none =>
      let conv : Conversation := ⟨s.nextId, [senderId, receiverId], listingId, none, now⟩
      let msg : Message :=
        ⟨s.nextId + 1, content, senderId, receiverId, conv.id, now, false⟩
      (⟨msg, conv⟩,
        ⟨(s.conversations ++ [conv]).map (updateSummary conv.id content now),
         s.messages ++ [msg], s.nextId + 2⟩)

/-- The findMany where-clause of getMessages: conversationId matches AND
(senderId = caller OR recipientId = caller). -/
def visibleTo (userId : String) (conversationId : Nat) (m : Message) : Bool :=
  m.conversationId == conversationId
    && (m.senderId == userId || m.recipientId == userId)

/-- Newest-first ordering on messages (orderBy createdAt desc). -/
def newerFirst (a b : Message) : Prop := b.createdAt ≤ a.createdAt

instance : DecidableRel newerFirst := fun a b => Nat.decLe b.createdAt a.createdAt

instance : IsTotal Message newerFirst := ⟨fun a b => Nat.le_total b.createdAt a.createdAt⟩

instance : IsTrans Message newerFirst := ⟨fun _ _ _ hab hbc => le_trans hbc hab⟩

/-- orderBy createdAt desc, as a stable sort on the createdAt key. -/
def sortNewestFirst (l : List Message) : List Message := l.insertionSort newerFirst

/-- The updateMany where-clause of getMessages: same conversation,
addressed to the caller, and still unread. -/
def unreadForRecipient (conversationId : Nat) (userId : String) (m : Message) : Bool :=
  m.conversationId == conversationId && m.recipientId == userId && m.read == false

/-- One row of the mark-read updateMany: set read := true on matching
rows, leave the rest untouched. -/
def markRead (conversationId : Nat) (userId : String) (m : Message) : Message :=
  if unreadForRecipient conversationId userId m then { m with read := true } else m

/-- getMessages (message.controller.ts): select the caller's messages of
the conversation newest-first, skip (page-1)*limit, take limit, then
mark every unread message addressed to the caller as read, and respond
with the selected page reversed (oldest-to-newest). -/
def getMessages (s : MsgStore) (conversationId : Nat) (userId : String)
    (page limit : Nat) : List Message × MsgStore :=
  let skip := (page - 1) * limit
  let pageMsgs :=
    (((sortNewestFirst (s.messages.filter (visibleTo userId conversationId))).drop
        skip).take limit).reverse
  (pageMsgs,
    ⟨s.conversations, s.messages.map (markRead conversationId userId), s.nextId⟩)

/-- Prisma model Notification: owner, type (a NotificationType value,
carried as its database string), content, loosely typed relatedId, read
flag and creation time. -/
structure Notification where
  id : Nat
  userId : String
  type : String
  content : String
  relatedId : String
  read : Bool
  createdAt : Nat
deriving Repr, DecidableEq

/-- The six values of enum NotificationType in the Prisma schema, which
are exactly the values of Object.values(NotificationType). -/
def notificationTypeValues : List String :=
  ["NEW_MESSAGE", "LISTING_INTEREST", "PRICE_UPDATE", "LISTING_SOLD",
   "SYSTEM_NOTICE", "LISTING_CREATED"]

/-- validateNotificationType (notification.controller.ts): membership in
Object.values(NotificationType). -/
def validateNotificationType (t : String) : Bool := notificationTypeValues.contains t

/-- The notification-controller slice of the database. -/
structure NotifStore where
  notifications : List Notification
  nextId : Nat
deriving Repr, DecidableEq

/-- createNotification (notification.controller.ts): reject an invalid
type (the thrown error is caught, logged and rethrown, so the store is
untouched); otherwise persist a row with read := false, then emit the
payload on the socket channel of the recipient.  The emit is inside the
same try block whose catch rethrows, so a throwing emit (modelled by
emitThrows) propagates the error to the caller while the already
persisted row remains; a non-throwing emit — including the no-op emit to
a channel with no connected socket — lets the function return the row. -/
def createNotification (s : NotifStore) (userId ty relatedId content : String)
    (now : Nat) (emitThrows : Bool) : Except String Notification × NotifStore :=
  if !validateNotificationType ty then (.error "Invalid notification type", s)
  else
    let n : Notification := ⟨s.nextId, userId, ty, content, relatedId, false, now⟩
    let s1 : NotifStore := ⟨s.notifications ++ [n], s.nextId + 1⟩
    if emitThrows then (.error "emit failed", s1) else (.ok n, s1)

/-- Prisma notification.delete with where clause by id and userId: when
a row matches both it is removed and returned, otherwise the client
throws error P2025 (record to delete does not exist). -/
def prismaDeleteNotification (s : NotifStore) (id : Nat) (userId : String) :
    Except String (Notification × NotifStore) :=
  match s.notifications.find? (fun n => n.id == id && n.userId == userId) with
  | none => .error "P2025"
  | some n =>
      .ok (n,
        ⟨s.notifications.filter (fun m => !(m.id == id && m.userId == userId)),
         s.nextId⟩)

/-- Outcome of deleteNotification: 200 Notification deleted, the 404
branch of the handler, or the 500 catch path.  The handler tests the
delete result for falsiness to produce the 404, but a successful Prisma
delete always returns the deleted record, so that branch is
unreachable: a missing or foreign-owned row makes delete throw, which
the catch turns into the 500 response. -/
inductive DeleteNotificationResult where
  | deleted
  | notFoundResp
  | serverError
deriving Repr, DecidableEq

/-- deleteNotification (notification.controller.ts): prisma delete by id
and owner inside try/catch. -/
def deleteNotification (s : NotifStore) (id : Nat) (userId : String) :
    DeleteNotificationResult × NotifStore :=
  match prismaDeleteNotification s id userId with
  | .error _ => (.serverError, s)
  | .ok (_, s1) => (.deleted, s1)

/-- Outcome of deleteMessage: 200 success, 404 Message not found, or 403
Not authorized to delete this message. -/
inductive DeleteMessageResult where
  | deleted
  | notFound
  | notAuthorized
deriving Repr, DecidableEq

/-- deleteMessage (message.controller.ts): findUnique by id; 404 when
absent; 403 when the caller is not the sender; otherwise hard delete. -/
def deleteMessage (s : MsgStore) (messageId : Nat) (callerId : String) :
    DeleteMessageResult × MsgStore :=
  match s.messages.find? (fun m => m.id == messageId) with
  | none => (.notFound, s)
  | some m =>
      if m.senderId ≠ callerId then (.notAuthorized, s)
      else
        (.deleted,
          ⟨s.conversations, s.messages.filter (fun m => !(m.id == messageId)),
           s.nextId⟩)

/-- The getMessages page as the spec words it: the underlying query
fetches the caller's messages of the conversation newest-first (ordered
by creation time descending), skips (page-1)*limit, takes limit of
them, and the result is reversed before returning. -/
def getMessagesPageSpec (s : MsgStore) (conversationId : Nat) (userId : String)
    (page limit : Nat) : List Message :=
  (((sortNewestFirst (s.messages.filter (visibleTo userId conversationId))).drop
      ((page - 1) * limit)).take limit).reverse

/-! Helper lemmas shared by the claim theorems. -/

theorem convMatches_updateSummary (A B L : String) (cid : Nat) (ct : String) (t : Nat)
    (c : Conversation) :
    convMatches A B L (updateSummary cid ct t c) = convMatches A B L c := by
  unfold updateSummary convMatches
  split <;> rfl

theorem convMatches_comp_updateSummary (A B L : String) (cid : Nat) (ct : String) (t : Nat) :
    convMatches A B L ∘ updateSummary cid ct t = convMatches A B L := by
  funext c
  exact convMatches_updateSummary A B L cid ct t c

theorem updateSummary_id (cid : Nat) (ct : String) (t : Nat) (c : Conversation) :
    (updateSummary cid ct t c).id = c.id := by
  unfold updateSummary
  split <;> rfl

/-- Unfolding of sendMessage when no conversation matches: one
conversation with the two participants is created and then summary
updated; the response carries the created conversation as created. -/
theorem sendMessage_create_eq (s : MsgStore) (A B L ct : String) (t : Nat)
    (h0 : s.conversations.find? (convMatches A B L) = none) :
    sendMessage s A B L ct t =
      (⟨⟨s.nextId + 1, ct, A, B, s.nextId, t, false⟩,
        ⟨s.nextId, [A, B], L, none, t⟩⟩,
       ⟨(s.conversations ++ [(⟨s.nextId, [A, B], L, none, t⟩ : Conversation)]).map
           (updateSummary s.nextId ct t),
        s.messages ++ [⟨s.nextId + 1, ct, A, B, s.nextId, t, false⟩],
        s.nextId + 2⟩) := by
  simp [sendMessage, h0]

/-- Unfolding of sendMessage when a conversation is found: no creation,
and the response carries the found conversation before its update. -/
theorem sendMessage_found_eq (s : MsgStore) (A B L ct : String) (t : Nat)
    (c : Conversation)
    (h0 : s.conversations.find? (convMatches A B L) = some c) :
    sendMessage s A B L ct t =
      (⟨⟨s.nextId, ct, A, B, c.id, t, false⟩, c⟩,
       ⟨s.conversations.map (updateSummary c.id ct t),
        s.messages ++ [⟨s.nextId, ct, A, B, c.id, t, false⟩],
        s.nextId + 1⟩) := by
  simp [sendMessage, h0]

theorem find?_convMatches_map_updateSummary (A B L : String) (cid : Nat) (ct : String)
    (t : Nat) (l : List Conversation) :
    (l.map (updateSummary cid ct t)).find? (convMatches A B L)
      = (l.find? (convMatches A B L)).map (updateSummary cid ct t) := by
  rw [List.find?_map, convMatches_comp_updateSummary]

theorem countP_convMatches_map_updateSummary (A B L : String) (cid : Nat) (ct : String)
    (t : Nat) (l : List Conversation) :
    (l.map (updateSummary cid ct t)).countP (convMatches A B L)
      = l.countP (convMatches A B L) := by
  rw [List.countP_map, convMatches_comp_updateSummary]

theorem convMatches_created (A B L : String) (i t : Nat) (lm : Option String) :
    convMatches A B L ⟨i, [A, B], L, lm, t⟩ = true := by
  simp [convMatches]

theorem updateSummary_created (A B L ct : String) (i t t0 : Nat) :
    updateSummary i ct t ⟨i, [A, B], L, none, t0⟩ = ⟨i, [A, B], L, some ct, t⟩ := by
  simp [updateSummary]

/-- After a creating sendMessage, the conversation lookup for the same
participants and listing finds the created-and-updated conversation. -/
theorem find?_after_create (s : MsgStore) (A B L ct : String) (t : Nat)
    (h0 : s.conversations.find? (convMatches A B L) = none) :
    ((s.conversations ++ [(⟨s.nextId, [A, B], L, none, t⟩ : Conversation)]).map
        (updateSummary s.nextId ct t)).find? (convMatches A B L)
      = some (⟨s.nextId, [A, B], L, some ct, t⟩ : Conversation) := by
  rw [List.map_append, List.find?_append, find?_convMatches_map_updateSummary, h0]
  simp [updateSummary_created, convMatches_created]

theorem countP_convMatches_after_create (s : MsgStore) (A B L ct : String) (t : Nat)
    (h0 : s.conversations.find? (convMatches A B L) = none) :
    ((s.conversations ++ [(⟨s.nextId, [A, B], L, none, t⟩ : Conversation)]).map
        (updateSummary s.nextId ct t)).countP (convMatches A B L) = 1 := by
  rw [countP_convMatches_map_updateSummary, List.countP_append]
  have hz : s.conversations.countP (convMatches A B L) = 0 := by
    rw [List.countP_eq_zero]
    intro c hc
    exact List.find?_eq_none.mp h0 c hc
  rw [hz]
  simp [List.countP_cons, convMatches_created]

/-- C1: For every sender A, recipient B and listing L, sendMessage
looks up an existing conversation whose participant set contains both A
and B and whose listingId equals L; when none exists it creates exactly
one such conversation with those two participants and an initial
lastMessageAt timestamp, and a second sendMessage with the same
(A, B, L) under sequential execution reuses that same conversation and
creates no duplicate. -/
theorem sendMessage_find_or_create_no_duplicate
    (s : MsgStore) (A B L c1 c2 : String) (t1 t2 : Nat)
    (h0 : s.conversations.find? (convMatches A B L) = none) :
    ((sendMessage s A B L c1 t1).2.conversations.countP (convMatches A B L) = 1)
    ∧ (∃ c ∈ (sendMessage s A B L c1 t1).2.conversations,
        convMatches A B L c = true ∧ c.participants = [A, B] ∧ c.lastMessageAt = t1)
    ∧ ((sendMessage (sendMessage s A B L c1 t1).2 A B L c2 t2).1.message.conversationId
        = (sendMessage s A B L c1 t1).1.message.conversationId)
    ∧ ((sendMessage (sendMessage s A B L c1 t1).2 A B L c2 t2).2.conversations.length
        = (sendMessage s A B L c1 t1).2.conversations.length)
    ∧ ((sendMessage (sendMessage s A B L c1 t1).2 A B L c2 t2).2.conversations.countP
        (convMatches A B L) = 1) := by
  rw [sendMessage_create_eq s A B L c1 t1 h0]
  have hfind2 := find?_after_create s A B L c1 t1 h0
  have hsnd :
      sendMessage
        (⟨(s.conversations ++ [(⟨s.nextId, [A, B], L, none, t1⟩ : Conversation)]).map
            (updateSummary s.nextId c1 t1),
          s.messages ++ [⟨s.nextId + 1, c1, A, B, s.nextId, t1, false⟩],
          s.nextId + 2⟩ : MsgStore) A B L c2 t2 =
      (⟨⟨s.nextId + 2, c2, A, B, s.nextId, t2, false⟩,
        ⟨s.nextId, [A, B], L, some c1, t1⟩⟩,
       ⟨((s.conversations ++ [(⟨s.nextId, [A, B], L, none, t1⟩ : Conversation)]).map
            (updateSummary s.nextId c1 t1)).map (updateSummary s.nextId c2 t2),
        (s.messages ++ [⟨s.nextId + 1, c1, A, B, s.nextId, t1, false⟩])
          ++ [⟨s.nextId + 2, c2, A, B, s.nextId, t2, false⟩],
        s.nextId + 3⟩) := by
    exact sendMessage_found_eq
      (⟨(s.conversations ++ [(⟨s.nextId, [A, B], L, none, t1⟩ : Conversation)]).map
          (updateSummary s.nextId c1 t1),
        s.messages ++ [⟨s.nextId + 1, c1, A, B, s.nextId, t1, false⟩],
        s.nextId + 2⟩ : MsgStore) A B L c2 t2
      (⟨s.nextId, [A, B], L, some c1, t1⟩ : Conversation) hfind2
  rw [hsnd]
  refine ⟨countP_convMatches_after_create s A B L c1 t1 h0, ?_, rfl, ?_, ?_⟩
  · refine ⟨⟨s.nextId, [A, B], L, some c1, t1⟩, ?_, convMatches_created A B L _ _ _, rfl, rfl⟩
    have hm : (⟨s.nextId, [A, B], L, none, t1⟩ : Conversation)
        ∈ s.conversations ++ [(⟨s.nextId, [A, B], L, none, t1⟩ : Conversation)] := by
      simp
    have := List.mem_map_of_mem (updateSummary s.nextId c1 t1) hm
    rwa [updateSummary_created] at this
  · simp
  · rw [countP_convMatches_map_updateSummary]
    exact countP_convMatches_after_create s A B L c1 t1 h0

/-- C1 witness: a concrete first-and-second send on the empty store. -/
theorem sendMessage_find_or_create_no_duplicate_witness :
    ((⟨[], [], 0⟩ : MsgStore).conversations.find? (convMatches "u1" "u2" "l1") = none)
    ∧ ((sendMessage (sendMessage ⟨[], [], 0⟩ "u1" "u2" "l1" "hi" 0).2
          "u1" "u2" "l1" "yo" 1).2.conversations.countP (convMatches "u1" "u2" "l1") = 1) :=
  ⟨rfl,
    (sendMessage_find_or_create_no_duplicate ⟨[], [], 0⟩ "u1" "u2" "l1" "hi" "yo" 0 1
      rfl).2.2.2.2⟩

theorem updated_summary_of_id_eq (cid : Nat) (ct : String) (t : Nat)
    (l : List Conversation) :
    ∀ x ∈ l.map (updateSummary cid ct t), x.id = cid →
      x.lastMessage = some ct ∧ x.lastMessageAt = t := by
  intro x hx hid
  rcases List.mem_map.mp hx with ⟨y, hy, rfl⟩
  by_cases h : y.id = cid
  · constructor <;> simp [updateSummary, h]
  · exfalso
    simp [updateSummary, h] at hid

/-- Postcondition of a single sendMessage: every conversation row
carrying the id the new message points to has its summary set to the
new content and time, some such row exists, and the new message is the
last created message of that conversation. -/
theorem sendMessage_post (s : MsgStore) (A B L ct : String) (t : Nat) :
    (∀ c ∈ (sendMessage s A B L ct t).2.conversations,
        c.id = (sendMessage s A B L ct t).1.message.conversationId →
          c.lastMessage = some ct ∧ c.lastMessageAt = t)
    ∧ (∃ c ∈ (sendMessage s A B L ct t).2.conversations,
        c.id = (sendMessage s A B L ct t).1.message.conversationId)
    ∧ (((sendMessage s A B L ct t).2.messages.filter
          (fun m => m.conversationId ==
            (sendMessage s A B L ct t).1.message.conversationId)).getLast?
        = some (sendMessage s A B L ct t).1.message)
    ∧ ((sendMessage s A B L ct t).1.message.content = ct) := by
  cases hf : s.conversations.find? (convMatches A B L) with
  | none =>
    rw [sendMessage_create_eq s A B L ct t hf]
    refine ⟨?_, ?_, ?_, rfl⟩
    · intro c hc hid
      exact updated_summary_of_id_eq s.nextId ct t _ c hc hid
    · refine ⟨⟨s.nextId, [A, B], L, some ct, t⟩, ?_, rfl⟩
      have hm : (⟨s.nextId, [A, B], L, none, t⟩ : Conversation)
          ∈ s.conversations ++ [(⟨s.nextId, [A, B], L, none, t⟩ : Conversation)] := by
        simp
      have := List.mem_map_of_mem (updateSummary s.nextId ct t) hm
      rwa [updateSummary_created] at this
    · rw [List.filter_append]
      simp
  | some c0 =>
    rw [sendMessage_found_eq s A B L ct t c0 hf]
    refine ⟨?_, ?_, ?_, rfl⟩
    · intro c hc hid
      exact updated_summary_of_id_eq c0.id ct t _ c hc hid
    · exact ⟨updateSummary c0.id ct t c0,
        List.mem_map_of_mem _ (List.mem_of_find?_eq_some hf),
        updateSummary_id c0.id ct t c0⟩
    · rw [List.filter_append]
      simp

/-- A second sendMessage with the same sender, recipient and listing
appends its message to the same conversation as the first. -/
theorem sendMessage_second_reuses (s : MsgStore) (A B L c1 c2 : String) (t1 t2 : Nat) :
    (sendMessage (sendMessage s A B L c1 t1).2 A B L c2 t2).1.message.conversationId
      = (sendMessage s A B L c1 t1).1.message.conversationId := by
  cases hf : s.conversations.find? (convMatches A B L) with
  | none =>
    rw [sendMessage_create_eq s A B L c1 t1 hf]
    have h2 := find?_after_create s A B L c1 t1 hf
    dsimp only
    rw [sendMessage_found_eq
      (⟨(s.conversations ++ [(⟨s.nextId, [A, B], L, none, t1⟩ : Conversation)]).map
          (updateSummary s.nextId c1 t1),
        s.messages ++ [(⟨s.nextId + 1, c1, A, B, s.nextId, t1, false⟩ : Message)],
        s.nextId + 2⟩ : MsgStore) A B L c2 t2
      (⟨s.nextId, [A, B], L, some c1, t1⟩ : Conversation) h2]
  | some c0 =>
    rw [sendMessage_found_eq s A B L c1 t1 c0 hf]
    have h2 : (s.conversations.map (updateSummary c0.id c1 t1)).find?
        (convMatches A B L) = some (updateSummary c0.id c1 t1 c0) := by
      rw [find?_convMatches_map_updateSummary, hf]
      rfl
    dsimp only
    rw [sendMessage_found_eq
      (⟨s.conversations.map (updateSummary c0.id c1 t1),
        s.messages ++ [(⟨s.nextId, c1, A, B, c0.id, t1, false⟩ : Message)],
        s.nextId + 1⟩ : MsgStore) A B L c2 t2
      (updateSummary c0.id c1 t1 c0) h2]
    simp [updateSummary_id]

/-- C2: After every successful sendMessage, the persisted conversation
the message belongs to has lastMessage equal to the content of the most
recently created message of that conversation, and across two
sequential sends with non-decreasing wall clock the lastMessageAt of
that conversation is monotonically non-decreasing (t1 then t2 with
t1 less-or-equal t2). -/
theorem sendMessage_summary_invariant_and_monotone
    (s : MsgStore) (A B L c1 c2 : String) (t1 t2 : Nat) (hle : t1 ≤ t2) :
    (∀ c ∈ (sendMessage s A B L c1 t1).2.conversations,
        c.id = (sendMessage s A B L c1 t1).1.message.conversationId →
          c.lastMessage = some c1 ∧ c.lastMessageAt = t1)
    ∧ (∃ c ∈ (sendMessage s A B L c1 t1).2.conversations,
        c.id = (sendMessage s A B L c1 t1).1.message.conversationId)
    ∧ (((sendMessage s A B L c1 t1).2.messages.filter
          (fun m => m.conversationId ==
            (sendMessage s A B L c1 t1).1.message.conversationId)).getLast?
        = some (sendMessage s A B L c1 t1).1.message)
    ∧ ((sendMessage s A B L c1 t1).1.message.content = c1)
    ∧ (∀ c ∈ (sendMessage (sendMessage s A B L c1 t1).2 A B L c2 t2).2.conversations,
        c.id = (sendMessage (sendMessage s A B L c1 t1).2 A B L c2
            t2).1.message.conversationId →
          c.lastMessage = some c2 ∧ c.lastMessageAt = t2)
    ∧ ((sendMessage (sendMessage s A B L c1 t1).2 A B L c2 t2).1.message.conversationId
        = (sendMessage s A B L c1 t1).1.message.conversationId)
    ∧ ((sendMessage (sendMessage s A B L c1 t1).2 A B L c2 t2).1.message.content = c2)
    ∧ t1 ≤ t2 := by
  obtain ⟨h1, h2, h3, h4⟩ := sendMessage_post s A B L c1 t1
  obtain ⟨g1, _, _, g4⟩ := sendMessage_post (sendMessage s A B L c1 t1).2 A B L c2 t2
  exact ⟨h1, h2, h3, h4, g1, sendMessage_second_reuses s A B L c1 c2 t1 t2, g4, hle⟩

/-- C2 witness: two concrete sequential sends on the empty store. -/
theorem sendMessage_summary_invariant_and_monotone_witness :
    (0 ≤ 1)
    ∧ ((sendMessage ⟨[], [], 0⟩ "u1" "u2" "l1" "hi" 0).1.message.content = "hi")
    ∧ ((sendMessage (sendMessage ⟨[], [], 0⟩ "u1" "u2" "l1" "hi" 0).2
          "u1" "u2" "l1" "yo" 1).1.message.conversationId
        = (sendMessage ⟨[], [], 0⟩ "u1" "u2" "l1" "hi" 0).1.message.conversationId) :=
  ⟨Nat.zero_le 1,
    (sendMessage_summary_invariant_and_monotone ⟨[], [], 0⟩ "u1" "u2" "l1" "hi" "yo" 0 1
      (Nat.zero_le 1)).2.2.2.1,
    (sendMessage_summary_invariant_and_monotone ⟨[], [], 0⟩ "u1" "u2" "l1" "hi" "yo" 0 1
      (Nat.zero_le 1)).2.2.2.2.2.1⟩

theorem markRead_idem (cid : Nat) (u : String) (m : Message) :
    markRead cid u (markRead cid u m) = markRead cid u m := by
  by_cases h : unreadForRecipient cid u m = true
  · have h1 : markRead cid u m = { m with read := true } := by
      simp [markRead, h]
    have h2 : unreadForRecipient cid u { m with read := true } = false := by
      simp [unreadForRecipient]
    rw [h1]
    simp [markRead, h2, h]
  · simp [markRead, h]

/-- C3: One getMessages call sets read := true on exactly the messages
of the conversation addressed to the caller that were unread, changes
no other message, and a second identical call changes nothing. -/
theorem getMessages_marks_read_idempotent (s : MsgStore) (cid : Nat) (u : String)
    (page limit : Nat) :
    ((getMessages s cid u page limit).2.messages.length = s.messages.length)
    ∧ (∀ (i : Nat) (m : Message), s.messages[i]? = some m →
        (getMessages s cid u page limit).2.messages[i]? =
          some (if unreadForRecipient cid u m = true then { m with read := true } else m))
    ∧ ((getMessages (getMessages s cid u page limit).2 cid u page limit).2
        = (getMessages s cid u page limit).2) := by
  refine ⟨by simp [getMessages], ?_, ?_⟩
  · intro i m hm
    have hmsg : (getMessages s cid u page limit).2.messages
        = s.messages.map (markRead cid u) := rfl
    rw [hmsg, List.getElem?_map, hm]
    simp [markRead]
  · have hcomp : markRead cid u ∘ markRead cid u = markRead cid u :=
      funext fun m => markRead_idem cid u m
    simp [getMessages, List.map_map, hcomp]

/-- C3 witness: a conversation holding an unread message addressed to
the caller, an already-read one would be left alone, and a message of
another pair; a repeated call changes nothing. -/
theorem getMessages_marks_read_idempotent_witness :
    ((⟨[], [⟨0, "a", "u1", "u2", 7, 3, false⟩, ⟨1, "b", "u2", "u1", 7, 5, false⟩,
        ⟨2, "c", "u3", "u4", 7, 4, false⟩], 3⟩ : MsgStore).messages[1]?
      = some ⟨1, "b", "u2", "u1", 7, 5, false⟩)
    ∧ ((getMessages ⟨[], [⟨0, "a", "u1", "u2", 7, 3, false⟩,
          ⟨1, "b", "u2", "u1", 7, 5, false⟩, ⟨2, "c", "u3", "u4", 7, 4, false⟩], 3⟩
          7 "u1" 1 20).2.messages[1]?
        = some (if unreadForRecipient 7 "u1" (⟨1, "b", "u2", "u1", 7, 5, false⟩ : Message)
              = true
            then { (⟨1, "b", "u2", "u1", 7, 5, false⟩ : Message) with read := true }
            else ⟨1, "b", "u2", "u1", 7, 5, false⟩))
    ∧ ((getMessages (getMessages ⟨[], [⟨0, "a", "u1", "u2", 7, 3, false⟩,
            ⟨1, "b", "u2", "u1", 7, 5, false⟩, ⟨2, "c", "u3", "u4", 7, 4, false⟩], 3⟩
            7 "u1" 1 20).2 7 "u1" 1 20).2
        = (getMessages ⟨[], [⟨0, "a", "u1", "u2", 7, 3, false⟩,
            ⟨1, "b", "u2", "u1", 7, 5, false⟩, ⟨2, "c", "u3", "u4", 7, 4, false⟩], 3⟩
            7 "u1" 1 20).2) :=
  ⟨rfl,
    (getMessages_marks_read_idempotent _ 7 "u1" 1 20).2.1 1
      ⟨1, "b", "u2", "u1", 7, 5, false⟩ rfl,
    (getMessages_marks_read_idempotent _ 7 "u1" 1 20).2.2⟩

/-- C8: The page returned by getMessages is computed from the messages
of the conversation of which the caller is sender or recipient only:
two stores agreeing on those messages produce the same page for that
caller, whatever other messages they hold. -/
theorem getMessages_independent_of_nonparty_messages
    (s1 s2 : MsgStore) (cid : Nat) (u : String) (page limit : Nat)
    (h : s1.messages.filter (visibleTo u cid) = s2.messages.filter (visibleTo u cid)) :
    (getMessages s1 cid u page limit).1 = (getMessages s2 cid u page limit).1 := by
  simp only [getMessages]
  rw [h]

/-- C8 witness: adding a message between two other users to the store
leaves the returned page unchanged. -/
theorem getMessages_independent_of_nonparty_messages_witness :
    (((⟨[], [⟨0, "a", "u1", "u2", 7, 3, false⟩, ⟨2, "c", "u3", "u4", 7, 4, false⟩],
          3⟩ : MsgStore).messages.filter (visibleTo "u1" 7))
      = ((⟨[], [⟨0, "a", "u1", "u2", 7, 3, false⟩], 1⟩ : MsgStore).messages.filter
          (visibleTo "u1" 7)))
    ∧ ((getMessages ⟨[], [⟨0, "a", "u1", "u2", 7, 3, false⟩,
          ⟨2, "c", "u3", "u4", 7, 4, false⟩], 3⟩ 7 "u1" 1 20).1
        = (getMessages ⟨[], [⟨0, "a", "u1", "u2", 7, 3, false⟩], 1⟩ 7 "u1" 1 20).1) :=
  ⟨rfl,
    getMessages_independent_of_nonparty_messages
      ⟨[], [⟨0, "a", "u1", "u2", 7, 3, false⟩, ⟨2, "c", "u3", "u4", 7, 4, false⟩], 3⟩
      ⟨[], [⟨0, "a", "u1", "u2", 7, 3, false⟩], 1⟩ 7 "u1" 1 20 rfl⟩

/-- C9: The page returned by getMessages equals the spec pipeline —
select the caller's messages of the conversation newest-first, skip
(page-1)*limit, take limit, reverse — and is therefore ordered
oldest-to-newest by creation time. -/
theorem getMessages_page_is_reversed_newest_first
    (s : MsgStore) (cid : Nat) (u : String) (page limit : Nat) :
    ((getMessages s cid u page limit).1 = getMessagesPageSpec s cid u page limit)
    ∧ List.Sorted (fun a b : Message => a.createdAt ≤ b.createdAt)
        (getMessages s cid u page limit).1 := by
  refine ⟨rfl, ?_⟩
  have hs : List.Sorted newerFirst
      (sortNewestFirst (s.messages.filter (visibleTo u cid))) :=
    List.sorted_insertionSort newerFirst _
  have hd : List.Pairwise newerFirst
      ((sortNewestFirst (s.messages.filter (visibleTo u cid))).drop
        ((page - 1) * limit)) :=
    List.Pairwise.sublist (List.drop_sublist _ _) hs
  have ht : List.Pairwise newerFirst
      (((sortNewestFirst (s.messages.filter (visibleTo u cid))).drop
          ((page - 1) * limit)).take limit) :=
    List.Pairwise.sublist (List.take_sublist _ _) hd
  exact List.pairwise_reverse.mpr ht

/-- C5: deleteMessage removes the message exactly when the caller is
its sender; a missing id is a not-found failure, a foreign caller gets
an authorization failure distinct from not-found and the store is left
unchanged. -/
theorem deleteMessage_sender_only (s : MsgStore) (mid : Nat) (u : String) :
    ((s.messages.find? (fun m => m.id == mid) = none →
        deleteMessage s mid u = (DeleteMessageResult.notFound, s))
    ∧ (∀ m : Message, s.messages.find? (fun m => m.id == mid) = some m →
        m.senderId = u →
          (deleteMessage s mid u).1 = DeleteMessageResult.deleted
          ∧ m ∉ (deleteMessage s mid u).2.messages)
    ∧ (∀ m : Message, s.messages.find? (fun m => m.id == mid) = some m →
        m.senderId ≠ u →
          deleteMessage s mid u = (DeleteMessageResult.notAuthorized, s))
    ∧ DeleteMessageResult.notAuthorized ≠ DeleteMessageResult.notFound) := by
  refine ⟨?_, ?_, ?_, by simp⟩
  · intro h
    simp [deleteMessage, h]
  · intro m hm hsend
    have hid : m.id = mid := by simpa using List.find?_some hm
    constructor
    · simp [deleteMessage, hm, hsend]
    · intro hmem
      have hdel : (deleteMessage s mid u).2.messages
          = s.messages.filter (fun x => !(x.id == mid)) := by
        simp [deleteMessage, hm, hsend]
      rw [hdel] at hmem
      have hfl := (List.mem_filter.mp hmem).2
      simp [hid] at hfl
  · intro m hm hsend
    simp [deleteMessage, hm, hsend]

/-- C5 witness: a store with one message sent by u1 to u2. -/
theorem deleteMessage_sender_only_witness :
    ((⟨[], [⟨0, "hi", "u1", "u2", 7, 0, false⟩], 1⟩ : MsgStore).messages.find?
        (fun m => m.id == 0) = some ⟨0, "hi", "u1", "u2", 7, 0, false⟩)
    ∧ ((deleteMessage ⟨[], [⟨0, "hi", "u1", "u2", 7, 0, false⟩], 1⟩ 0 "u1").1
        = DeleteMessageResult.deleted)
    ∧ ((⟨0, "hi", "u1", "u2", 7, 0, false⟩ : Message)
        ∉ (deleteMessage ⟨[], [⟨0, "hi", "u1", "u2", 7, 0, false⟩], 1⟩ 0 "u1").2.messages)
    ∧ (deleteMessage ⟨[], [⟨0, "hi", "u1", "u2", 7, 0, false⟩], 1⟩ 0 "u2"
        = (DeleteMessageResult.notAuthorized,
            ⟨[], [⟨0, "hi", "u1", "u2", 7, 0, false⟩], 1⟩))
    ∧ (deleteMessage ⟨[], [⟨0, "hi", "u1", "u2", 7, 0, false⟩], 1⟩ 99 "u1"
        = (DeleteMessageResult.notFound,
            ⟨[], [⟨0, "hi", "u1", "u2", 7, 0, false⟩], 1⟩)) := by
  refine ⟨rfl, ?_, ?_, ?_, ?_⟩
  · exact ((deleteMessage_sender_only ⟨[], [⟨0, "hi", "u1", "u2", 7, 0, false⟩], 1⟩
      0 "u1").2.1 ⟨0, "hi", "u1", "u2", 7, 0, false⟩ rfl rfl).1
  · exact ((deleteMessage_sender_only ⟨[], [⟨0, "hi", "u1", "u2", 7, 0, false⟩], 1⟩
      0 "u1").2.1 ⟨0, "hi", "u1", "u2", 7, 0, false⟩ rfl rfl).2
  · exact (deleteMessage_sender_only ⟨[], [⟨0, "hi", "u1", "u2", 7, 0, false⟩], 1⟩
      0 "u2").2.2.1 ⟨0, "hi", "u1", "u2", 7, 0, false⟩ rfl (by decide)
  · exact (deleteMessage_sender_only ⟨[], [⟨0, "hi", "u1", "u2", 7, 0, false⟩], 1⟩
      99 "u1").1 rfl

/-- C6: createNotification rejects a type outside the six enumerated
notification kinds with a validation error and persists nothing; for a
valid type it persists exactly one row with read := false and, when the
push step does not throw, returns it. -/
theorem createNotification_validates_type_and_persists
    (s : NotifStore) (uid ty rid ct : String) (now : Nat) (emitThrows : Bool) :
    (notificationTypeValues.length = 6)
    ∧ (validateNotificationType ty = false →
        createNotification s uid ty rid ct now emitThrows
          = (Except.error "Invalid notification type", s))
    ∧ (validateNotificationType ty = true →
        ∃ n : Notification,
          (createNotification s uid ty rid ct now emitThrows).2.notifications
              = s.notifications ++ [n]
          ∧ n.read = false ∧ n.userId = uid ∧ n.type = ty ∧ n.content = ct
          ∧ (emitThrows = false →
              (createNotification s uid ty rid ct now emitThrows).1
                = Except.ok n)) := by
  refine ⟨rfl, ?_, ?_⟩
  · intro h
    simp [createNotification, h]
  · intro h
    refine ⟨⟨s.nextId, uid, ty, ct, rid, false, now⟩, ?_, rfl, rfl, rfl, rfl, ?_⟩
    · cases emitThrows <;> simp [createNotification, h]
    · intro he
      subst he
      simp [createNotification, h]

/-- C6 witness: a rejected bogus type and an accepted NEW_MESSAGE. -/
theorem createNotification_validates_type_and_persists_witness :
    (validateNotificationType "BOGUS" = false)
    ∧ (createNotification ⟨[], 0⟩ "u1" "BOGUS" "r1" "hello" 0 false
        = (Except.error "Invalid notification type", ⟨[], 0⟩))
    ∧ (validateNotificationType "NEW_MESSAGE" = true)
    ∧ (∃ n : Notification,
        (createNotification ⟨[], 0⟩ "u1" "NEW_MESSAGE" "r1" "hello" 0
            false).2.notifications
            = (⟨[], 0⟩ : NotifStore).notifications ++ [n]
        ∧ n.read = false ∧ n.userId = "u1" ∧ n.type = "NEW_MESSAGE"
        ∧ n.content = "hello"
        ∧ (false = false →
            (createNotification ⟨[], 0⟩ "u1" "NEW_MESSAGE" "r1" "hello" 0 false).1
              = Except.ok n)) :=
  ⟨rfl,
    (createNotification_validates_type_and_persists ⟨[], 0⟩ "u1" "BOGUS" "r1"
      "hello" 0 false).2.1 rfl,
    rfl,
    (createNotification_validates_type_and_persists ⟨[], 0⟩ "u1" "NEW_MESSAGE" "r1"
      "hello" 0 false).2.2 rfl⟩

/-- C4 (amended): a throwing realtime push does not roll back the
persisted notification row — it remains the durable record — but the
error is rethrown to the caller instead of the notification being
returned; a non-throwing push, including the no-op push when no socket
is connected, lets the operation return the persisted row. -/
theorem createNotification_push_failure_keeps_row_but_propagates
    (s : NotifStore) (uid ty rid ct : String) (now : Nat)
    (hty : validateNotificationType ty = true) :
    ((createNotification s uid ty rid ct now true).2.notifications
        = s.notifications ++ [⟨s.nextId, uid, ty, ct, rid, false, now⟩])
    ∧ ((createNotification s uid ty rid ct now true).1
        = Except.error "emit failed")
    ∧ ((createNotification s uid ty rid ct now false).1
        = Except.ok ⟨s.nextId, uid, ty, ct, rid, false, now⟩)
    ∧ ((createNotification s uid ty rid ct now false).2.notifications
        = s.notifications ++ [⟨s.nextId, uid, ty, ct, rid, false, now⟩]) := by
  refine ⟨?_, ?_, ?_, ?_⟩ <;> simp [createNotification, hty]

/-- C4 counterexample: with a valid type and a throwing push, the row is
persisted yet the enclosing operation fails with the push error instead
of returning the notification. -/
theorem createNotification_push_failure_counterexample :
    ((createNotification ⟨[], 0⟩ "u1" "NEW_MESSAGE" "l9" "hello" 3 true).1
        = Except.error "emit failed")
    ∧ ((createNotification ⟨[], 0⟩ "u1" "NEW_MESSAGE" "l9" "hello" 3
          true).2.notifications.length = 1) :=
  ⟨rfl, rfl⟩

/-- C4 witness: a concrete valid-type call. -/
theorem createNotification_push_failure_keeps_row_but_propagates_witness :
    (validateNotificationType "NEW_MESSAGE" = true)
    ∧ ((createNotification ⟨[], 0⟩ "u1" "NEW_MESSAGE" "l9" "hello" 3 false).1
        = Except.ok ⟨0, "u1", "NEW_MESSAGE", "hello", "l9", false, 3⟩) :=
  ⟨rfl,
    (createNotification_push_failure_keeps_row_but_propagates ⟨[], 0⟩ "u1"
      "NEW_MESSAGE" "l9" "hello" 3 rfl).2.2.1⟩

/-- C7: evaluating deleteNotification where the notification is missing
or owned by another user: the handler answers through the 500 catch
path — Prisma delete throws P2025, the 404 branch is dead code — and no
row is removed; an owner delete removes the row. -/
theorem deleteNotification_missing_row_hits_catch_not_404 :
    ((deleteNotification ⟨[⟨0, "owner", "NEW_MESSAGE", "hello", "rel", false, 0⟩], 1⟩
        5 "owner").1 = DeleteNotificationResult.serverError)
    ∧ ((deleteNotification ⟨[⟨0, "owner", "NEW_MESSAGE", "hello", "rel", false, 0⟩], 1⟩
        5 "owner").2
      = ⟨[⟨0, "owner", "NEW_MESSAGE", "hello", "rel", false, 0⟩], 1⟩)
    ∧ ((deleteNotification ⟨[⟨0, "owner", "NEW_MESSAGE", "hello", "rel", false, 0⟩], 1⟩
        0 "intruder").1 = DeleteNotificationResult.serverError)
    ∧ ((deleteNotification ⟨[⟨0, "owner", "NEW_MESSAGE", "hello", "rel", false, 0⟩], 1⟩
        0 "intruder").2
      = ⟨[⟨0, "owner", "NEW_MESSAGE", "hello", "rel", false, 0⟩], 1⟩)
    ∧ ((deleteNotification ⟨[⟨0, "owner", "NEW_MESSAGE", "hello", "rel", false, 0⟩], 1⟩
        0 "owner").1 = DeleteNotificationResult.deleted)
    ∧ ((deleteNotification ⟨[⟨0, "owner", "NEW_MESSAGE", "hello", "rel", false, 0⟩], 1⟩
        0 "owner").2.notifications = []) :=
  ⟨rfl, rfl, rfl, rfl, rfl, rfl⟩

/-- C10 (amended): the conversation object in the sendMessage response
is the snapshot read or created before the summary update — lastMessage
is null when the conversation was created by this call and the
previously persisted value otherwise, which can coincide with the new
content when the two are the same string — even though the persisted
row has been updated to the new content. -/
theorem sendMessage_response_conversation_is_snapshot
    (s : MsgStore) (A B L ct : String) (t : Nat) :
    (s.conversations.find? (convMatches A B L) = none →
        (sendMessage s A B L ct t).1.conversation.lastMessage = none)
    ∧ (∀ c : Conversation, s.conversations.find? (convMatches A B L) = some c →
        (sendMessage s A B L ct t).1.conversation = c)
    ∧ (∀ c ∈ (sendMessage s A B L ct t).2.conversations,
        c.id = (sendMessage s A B L ct t).1.conversation.id →
          c.lastMessage = some ct) := by
  refine ⟨?_, ?_, ?_⟩
  · intro h
    rw [sendMessage_create_eq s A B L ct t h]
  · intro c h
    rw [sendMessage_found_eq s A B L ct t c h]
  · intro c hc hid
    cases hf : s.conversations.find? (convMatches A B L) with
    | none =>
      rw [sendMessage_create_eq s A B L ct t hf] at hc hid
      exact (updated_summary_of_id_eq s.nextId ct t
        (s.conversations ++ [(⟨s.nextId, [A, B], L, none, t⟩ : Conversation)])
        c hc hid).1
    | some c0 =>
      rw [sendMessage_found_eq s A B L ct t c0 hf] at hc hid
      exact (updated_summary_of_id_eq c0.id ct t s.conversations c hc hid).1

/-- C10 counterexample: sending the same content twice makes the second
response carry a conversation whose lastMessage equals the just-sent
message content, refuting that it never contains it. -/
theorem sendMessage_response_lastMessage_equals_sent_content :
    ((sendMessage (sendMessage ⟨[], [], 0⟩ "u1" "u2" "l1" "hi" 0).2
        "u1" "u2" "l1" "hi" 1).1.conversation.lastMessage
      = some (sendMessage (sendMessage ⟨[], [], 0⟩ "u1" "u2" "l1" "hi" 0).2
          "u1" "u2" "l1" "hi" 1).1.message.content) := rfl

/-- C10 witness: a creating call returns a null lastMessage and a
reusing call returns the stale previous value, while the persisted row
carries the new content. -/
theorem sendMessage_response_conversation_is_snapshot_witness :
    ((⟨[], [], 0⟩ : MsgStore).conversations.find? (convMatches "u1" "u2" "l1") = none)
    ∧ ((sendMessage ⟨[], [], 0⟩ "u1" "u2" "l1" "hi" 0).1.conversation.lastMessage
        = none)
    ∧ ((⟨[⟨0, ["u1", "u2"], "l1", some "old", 5⟩], [], 1⟩ : MsgStore).conversations.find?
          (convMatches "u1" "u2" "l1")
        = some ⟨0, ["u1", "u2"], "l1", some "old", 5⟩)
    ∧ ((sendMessage ⟨[⟨0, ["u1", "u2"], "l1", some "old", 5⟩], [], 1⟩
          "u1" "u2" "l1" "hi" 9).1.conversation
        = ⟨0, ["u1", "u2"], "l1", some "old", 5⟩) :=
  ⟨rfl,
    (sendMessage_response_conversation_is_snapshot ⟨[], [], 0⟩ "u1" "u2" "l1" "hi"
      0).1 rfl,
    rfl,
    (sendMessage_response_conversation_is_snapshot
      ⟨[⟨0, ["u1", "u2"], "l1", some "old", 5⟩], [], 1⟩ "u1" "u2" "l1" "hi" 9).2.1
      ⟨0, ["u1", "u2"], "l1", some "old", 5⟩ rfl⟩

end Tijara
